import Mathlib

/-!
Formalisation of the page-tiling and layout geometry of the `mapmaker`
module of python-pathfinder-tools (`src/python/pathfinder/mapmaker/__init__.py`).

All physical quantities (millimetres, pixels) are modelled as rationals;
Python's `math.ceil` on a float ratio becomes `Int.ceil` on the rational ratio.
The functions below are direct transcriptions of the source:

* `pages`          — the inner helper `pages` of `get_page_size` (lines 243-249);
* `zero_if_one`    — the inner helper `zero_if_one` (lines 256-259);
* `get_page_size`  — the layout planner inside `split_image` (lines 238-274);
* `pixels_per_mm`  — the scale computation shared by `split_image` and
  `process_image_with_border` (lines 146, 228);
* `crop_for` / `split_image` — the tiling loop (lines 276-302);
* `tick` / `tile_ticks` — the registration-mark geometry of `make_pdf`
  (lines 323-346 and 360-375).
-/

/-- A paper size, mirroring the `PaperSize` dataclass (width/height in mm). -/
structure PaperSize where
  width : ℚ
  height : ℚ
  name : String
deriving DecidableEq

/-- `Paper.A4` from the source. -/
def A4 : PaperSize := ⟨210, 297, "A4"⟩

/-- `Paper.A3` from the source. -/
def A3 : PaperSize := ⟨297, 420, "A3"⟩

/-- The helper `pages(size, printable_size, overlap)` of `get_page_size`:
number of pages along one axis. -/
def pages (size printable_size overlap : ℚ) : ℤ :=
  if ⌈size / printable_size⌉ = 1 then 1 else ⌈size / (printable_size + overlap)⌉

/-- The helper `zero_if_one(test, value)` of `get_page_size`. -/
def zero_if_one (test : ℤ) (value : ℚ) : ℚ :=
  if test = 1 then 0 else value

/-- The tuple returned by `get_page_size`:
`(orientation, pages_horizontal, pages_vertical, page_width, page_height)`. -/
structure PageSizeResult where
  orientation : String
  pages_horizontal : ℤ
  pages_vertical : ℤ
  page_width : ℚ
  page_height : ℚ
deriving DecidableEq

/-- The planner `get_page_size` nested in `split_image`, as a function of the
enclosing parameters (paper, borders, overlaps) and the image size in mm. -/
def get_page_size (paper : PaperSize) (border_north border_east border_south border_west
    overlap_east overlap_south width_mm height_mm : ℚ) : PageSizeResult :=
  let printable_width := paper.width - (border_east + border_west)
  let printable_height := paper.height - (border_north + border_south)
  let pages_horizontal_p := pages width_mm printable_width overlap_east
  let pages_vertical_p := pages height_mm printable_height overlap_south
  let pages_horizontal_l := pages width_mm printable_height overlap_south
  let pages_vertical_l := pages height_mm printable_width overlap_east
  if pages_horizontal_p * pages_vertical_p > pages_horizontal_l * pages_vertical_l then
    ⟨"L", pages_horizontal_l, pages_vertical_l,
      printable_height - zero_if_one pages_horizontal_l overlap_south,
      printable_width - zero_if_one pages_vertical_l overlap_east⟩
  else
    ⟨"P", pages_horizontal_p, pages_vertical_p,
      printable_width - zero_if_one pages_horizontal_p overlap_east,
      printable_height - zero_if_one pages_vertical_p overlap_south⟩

/-- The scale computation
`pixels_per_mm = min(width_pixels / (squares_wide * 25.4), height_pixels / (squares_high * 25.4))`. -/
def pixels_per_mm (width_pixels height_pixels squares_wide squares_high : ℚ) : ℚ :=
  min (width_pixels / (squares_wide * 25.4)) (height_pixels / (squares_high * 25.4))

/-- A pixel crop box `(left, top, right, bottom)` as passed to `im.crop`. -/
structure CropRect where
  left : ℚ
  top : ℚ
  right : ℚ
  bottom : ℚ
deriving DecidableEq

/-- The helper `crop_for(page_x, page_y)` of `split_image`. -/
def crop_for (width_pixels height_pixels pixel_width_page pixel_height_page
    overlap_east_pixels overlap_south_pixels : ℚ) (page_x page_y : ℤ) : CropRect :=
  ⟨page_x * pixel_width_page, page_y * pixel_height_page,
   min width_pixels ((page_x + 1) * pixel_width_page + overlap_east_pixels),
   min height_pixels ((page_y + 1) * pixel_height_page + overlap_south_pixels)⟩

/-- The dict returned by `split_image`, with the image map replaced by the list
of `(x, y, crop box)` triples it is built from (x-major order, as in the
Python dict comprehension). -/
structure SplitResult where
  pixels_per_mm : ℚ
  tiles : List (ℤ × ℤ × CropRect)
  orientation : String
  border : List ℚ
  pages_horizontal : ℤ
  pages_vertical : ℤ
  paper : PaperSize
deriving DecidableEq

/-- `split_image`, with the image represented by its pixel dimensions.
Brighten/sharpen/saturation do not change the image size and are dropped. -/
def split_image (width_pixels height_pixels squares_wide squares_high
    border_north border_east border_south border_west
    overlap_east overlap_south : ℚ) (paper : PaperSize) : SplitResult :=
  let ppm := pixels_per_mm width_pixels height_pixels squares_wide squares_high
  let width_mm := width_pixels / ppm
  let height_mm := height_pixels / ppm
  let r := get_page_size paper border_north border_east border_south border_west
    overlap_east overlap_south width_mm height_mm
  let pixel_width_page := r.page_width * ppm
  let pixel_height_page := r.page_height * ppm
  let overlap_east_pixels := if r.orientation = "P" then ppm * overlap_east else ppm * overlap_south
  let overlap_south_pixels := if r.orientation = "P" then ppm * overlap_south else ppm * overlap_east
  let borders := if r.orientation = "P" then
      [border_north, border_east + overlap_east, border_south + overlap_south, border_west]
    else
      [border_east, border_south + overlap_east, border_west + overlap_south, border_north]
  { pixels_per_mm := ppm
    tiles := (List.range r.pages_horizontal.toNat).bind fun (x : ℕ) =>
      (List.range r.pages_vertical.toNat).map fun (y : ℕ) =>
        ((x : ℤ), (y : ℤ), crop_for width_pixels height_pixels pixel_width_page pixel_height_page
          overlap_east_pixels overlap_south_pixels x y)
    orientation := r.orientation
    border := borders
    pages_horizontal := r.pages_horizontal
    pages_vertical := r.pages_vertical
    paper := paper }

/-- `(px, py)` lies in the (closed) crop box `r`. -/
def rectContains (r : CropRect) (px py : ℚ) : Prop :=
  r.left ≤ px ∧ px ≤ r.right ∧ r.top ≤ py ∧ py ≤ r.bottom

/-- A drawn line segment from `(x1, y1)` to `(x2, y2)`, solid or dashed. -/
structure Seg where
  x1 : ℚ
  y1 : ℚ
  x2 : ℚ
  y2 : ℚ
  dash : Bool
deriving DecidableEq

/-- The helper `tick(x, y, size, gap, n, e, s, w, dash)` of `make_pdf`,
returning the segments it draws (in source order: w, e, n, s). -/
def tick (page_width page_height x y size gap : ℚ) (n e s w dash : Bool) : List Seg :=
  (if w then
    [if x ≤ size then ⟨x - gap, y, 0, y, dash⟩ else ⟨x - gap, y, x - size, y, dash⟩] else [])
  ++ (if e then
    [if page_width - x ≤ size then ⟨x + gap, y, page_width, y, dash⟩
     else ⟨x + gap, y, x + size, y, dash⟩] else [])
  ++ (if n then
    [if y ≤ size then ⟨x, y - gap, x, 0, dash⟩ else ⟨x, y - gap, x, y - size, dash⟩] else [])
  ++ (if s then
    [if page_height - y ≤ size then ⟨x, y + gap, x, page_height, dash⟩
     else ⟨x, y + gap, x, y + size, dash⟩] else [])

/-- One invocation of `tick` in the per-tile loop of `make_pdf`:
anchor point, direction flags and dash flag. -/
structure Tick where
  x : ℚ
  y : ℚ
  n : Bool
  e : Bool
  s : Bool
  w : Bool
  dash : Bool
deriving DecidableEq

/-- The `tick` invocations `make_pdf` makes for the tile at grid position
`(x, y)` (lines 360-375): four solid corner ticks, the dashed east-edge pair
unless the tile is in the last column, the dashed south-edge pair unless it
is in the last row. -/
def tile_ticks (border_north border_east border_south border_west
    im_width_mm im_height_mm page_width page_height : ℚ)
    (x y pages_horizontal pages_vertical : ℤ) : List Tick :=
  let last_vertical := y = pages_vertical - 1
  let last_horizontal := x = pages_horizontal - 1
  [⟨border_west, border_north, true, false, false, true, false⟩,
   ⟨border_west, border_north + im_height_mm, false, false, true, true, false⟩,
   ⟨border_west + im_width_mm, border_north + im_height_mm, false, true, true, false, false⟩,
   ⟨border_west + im_width_mm, border_north, true, true, false, false, false⟩]
  ++ (if ¬ last_horizontal then
      [⟨page_width - border_east, im_height_mm + border_north, false, false, true, false, true⟩,
       ⟨page_width - border_east, border_north, true, false, false, false, true⟩] else [])
  ++ (if ¬ last_vertical then
      [⟨border_west, page_height - border_south, false, false, false, true, true⟩,
       ⟨border_west + im_width_mm, page_height - border_south, false, true, false, false, true⟩]
     else [])

/-- Modelled from the spec: the validity check §4.1/§7 demands of `plan`
("Fails with InvalidGeometryError if any margin ≥ corresponding half of paper
size"); no such check exists anywhere in the source, which is why it is
reconstructed here from the spec's words for comparison with `get_page_size`. -/
inductive PlanError where
  | invalidGeometry
deriving DecidableEq

/-- Modelled from the spec: `plan` as §4.1 describes it — reject a
configuration whose margins reach half the paper span, otherwise defer to the
source's `get_page_size`. -/
def plan_spec (paper : PaperSize) (border_north border_east border_south border_west
    overlap_east overlap_south width_mm height_mm : ℚ) : Except PlanError PageSizeResult :=
  if paper.height / 2 ≤ border_north ∨ paper.height / 2 ≤ border_south ∨
     paper.width / 2 ≤ border_east ∨ paper.width / 2 ≤ border_west then
    .error .invalidGeometry
  else
    .ok (get_page_size paper border_north border_east border_south border_west
      overlap_east overlap_south width_mm height_mm)

/-! ### Helper lemmas -/

lemma ceil_eval {q : ℚ} {n : ℤ} (h₁ : (n : ℚ) - 1 < q) (h₂ : q ≤ (n : ℚ)) : ⌈q⌉ = n :=
  Int.ceil_eq_iff.mpr ⟨h₁, h₂⟩

lemma one_le_pages {size p o : ℚ} (hs : 0 < size) (hp : 0 < p) (ho : 0 ≤ o) :
    1 ≤ pages size p o := by
  unfold pages
  split
  · exact le_refl 1
  · have hpo : 0 < p + o := by linarith
    have h : 0 < size / (p + o) := div_pos hs hpo
    have := Int.ceil_pos.mpr h
    omega

lemma pages_eq_one_of_le {size p o : ℚ} (hs : 0 < size) (hp : 0 < p) (hle : size ≤ p) :
    pages size p o = 1 := by
  have hc : ⌈size / p⌉ = 1 := by
    have h1 : ⌈size / p⌉ ≤ 1 := Int.ceil_le.mpr (by
      rw [Int.cast_one]
      exact (div_le_one hp).mpr hle)
    have h2 : 0 < ⌈size / p⌉ := Int.ceil_pos.mpr (div_pos hs hp)
    omega
  simp [pages, hc]

lemma le_of_pages_eq_one {size p o : ℚ} (hp : 0 < p) (ho : 0 ≤ o)
    (h : pages size p o = 1) : size ≤ p + o := by
  unfold pages at h
  split at h
  · rename_i hc
    have : size / p ≤ 1 := by
      have := Int.ceil_le.mp hc.le
      simpa using this
    have : size ≤ p := (div_le_one hp).mp this
    linarith
  · have hpo : 0 < p + o := by linarith
    have : size / (p + o) ≤ 1 := by
      have := Int.ceil_le.mp h.le
      simpa using this
    exact (div_le_one hpo).mp this

lemma zero_if_one_one (v : ℚ) : zero_if_one 1 v = 0 := by
  simp [zero_if_one]

lemma zero_if_one_of_gt {n : ℤ} (h : 1 < n) (v : ℚ) : zero_if_one n v = v := by
  rw [zero_if_one, if_neg (by omega)]

lemma pages_eval_of_fit {s p : ℚ} (h : ⌈s / p⌉ = 1) (o : ℚ) : pages s p o = 1 := by
  rw [pages, if_pos h]

lemma pages_eval_of_split {s p o q : ℚ} {m n : ℤ} (hsum : p + o = q)
    (h1 : ⌈s / p⌉ = m) (hm : m ≠ 1) (h2 : ⌈s / q⌉ = n) : pages s p o = n := by
  rw [pages, if_neg (h1 ▸ hm), hsum, h2]

lemma get_page_size_eval {paper : PaperSize} {bn be bs bw oe os w h pw ph : ℚ}
    {php pvp phl pvl : ℤ}
    (hpw : paper.width - (be + bw) = pw) (hph : paper.height - (bn + bs) = ph)
    (h1 : pages w pw oe = php) (h2 : pages h ph os = pvp)
    (h3 : pages w ph os = phl) (h4 : pages h pw oe = pvl) :
    get_page_size paper bn be bs bw oe os w h =
      if php * pvp > phl * pvl then
        ⟨"L", phl, pvl, ph - zero_if_one phl os, pw - zero_if_one pvl oe⟩
      else
        ⟨"P", php, pvp, pw - zero_if_one php oe, ph - zero_if_one pvp os⟩ := by
  rw [get_page_size]
  rw [hpw, hph, h1, h2, h3, h4]

/-- Concrete planner run: a 415mm x 100mm image on A4 with 5mm borders and
10mm overlaps gives a portrait 2 x 1 layout of 190mm x 287mm printable pages. -/
lemma get_page_size_inst_A :
    get_page_size A4 5 5 5 5 10 10 415 100 = ⟨"P", 2, 1, 190, 287⟩ := by
  have c1 : ⌈(415 : ℚ) / 200⌉ = 3 := ceil_eval (by norm_num) (by norm_num)
  have c2 : ⌈(415 : ℚ) / 210⌉ = 2 := ceil_eval (by norm_num) (by norm_num)
  have c3 : ⌈(100 : ℚ) / 287⌉ = 1 := ceil_eval (by norm_num) (by norm_num)
  have c4 : ⌈(415 : ℚ) / 287⌉ = 2 := ceil_eval (by norm_num) (by norm_num)
  have c5 : ⌈(415 : ℚ) / 297⌉ = 2 := ceil_eval (by norm_num) (by norm_num)
  have p1 : pages 415 200 10 = 2 :=
    pages_eval_of_split (by norm_num) c1 (by decide) c2
  have p2 : pages 100 287 10 = 1 := pages_eval_of_fit c3 10
  have p3 : pages 415 287 10 = 2 :=
    pages_eval_of_split (by norm_num) c4 (by decide) c5
  have p4 : pages 100 200 10 = 1 :=
    pages_eval_of_fit (ceil_eval (by norm_num) (by norm_num)) 10
  rw [get_page_size_eval (show A4.width - (5 + 5) = (200 : ℚ) from by norm_num [A4])
    (show A4.height - (5 + 5) = (287 : ℚ) from by norm_num [A4]) p1 p2 p3 p4]
  rw [if_neg (by decide)]
  rw [zero_if_one_of_gt (by decide), zero_if_one_one]
  norm_num

/-- Concrete planner run on a malformed configuration: east and west borders of
120mm on A4 (each beyond the 105mm half width) still produce an ordinary
result, with -5 pages horizontally and a page width of -40mm. -/
lemma get_page_size_inst_B :
    get_page_size A4 5 120 5 120 10 10 100 100 = ⟨"P", -5, 1, -40, 287⟩ := by
  have c1 : ⌈(100 : ℚ) / (-30)⌉ = -3 := ceil_eval (by norm_num) (by norm_num)
  have c2 : ⌈(100 : ℚ) / (-20)⌉ = -5 := ceil_eval (by norm_num) (by norm_num)
  have c3 : ⌈(100 : ℚ) / 287⌉ = 1 := ceil_eval (by norm_num) (by norm_num)
  have p1 : pages 100 (-30) 10 = -5 :=
    pages_eval_of_split (by norm_num) c1 (by decide) c2
  have p2 : pages 100 287 10 = 1 := pages_eval_of_fit c3 10
  rw [get_page_size_eval (show A4.width - (120 + 120) = (-30 : ℚ) from by norm_num [A4])
    (show A4.height - (5 + 5) = (287 : ℚ) from by norm_num [A4]) p1 p2 p2 p1]
  rw [if_neg (by decide)]
  rw [zero_if_one_one]
  rw [show zero_if_one (-5) 10 = 10 from by rw [zero_if_one, if_neg (by decide)]]
  norm_num

/-! ### Claims -/

/-- Claim C2: for positive extent and printable size and non-negative overlap,
`pages` equals 1 when `⌈size/printable⌉ = 1` and `⌈size/(printable+overlap)⌉`
otherwise; in particular an extent that fits in one printable span always gets
exactly one page, whatever the overlap. -/
theorem claim_C2_pages_formula (size p o : ℚ) (hs : 0 < size) (hp : 0 < p) (ho : 0 ≤ o) :
    pages size p o = (if ⌈size / p⌉ = 1 then 1 else ⌈size / (p + o)⌉) ∧
    (size ≤ p → pages size p o = 1) := by
  constructor
  · rfl
  · intro hle
    exact pages_eq_one_of_le hs hp hle

theorem claim_C2_witness :
    0 < (100 : ℚ) ∧ 0 < (200 : ℚ) ∧ 0 ≤ (10 : ℚ) ∧
    (pages 100 200 10 = (if ⌈(100 : ℚ) / 200⌉ = 1 then 1 else ⌈(100 : ℚ) / (200 + 10)⌉) ∧
      ((100 : ℚ) ≤ 200 → pages 100 200 10 = 1)) :=
  ⟨by norm_num, by norm_num, by norm_num,
    claim_C2_pages_formula 100 200 10 (by norm_num) (by norm_num) (by norm_num)⟩

/-- Claim C1: with positive printable area, the chosen layout's
`pages_horizontal * pages_vertical` is the minimum of the portrait and
landscape page-count products, and an exact tie selects portrait. -/
theorem claim_C1_orientation_minimal (paper : PaperSize)
    (border_north border_east border_south border_west
      overlap_east overlap_south width_mm height_mm : ℚ)
    (hpw : 0 < paper.width - (border_east + border_west))
    (hph : 0 < paper.height - (border_north + border_south)) :
    (get_page_size paper border_north border_east border_south border_west
        overlap_east overlap_south width_mm height_mm).pages_horizontal *
      (get_page_size paper border_north border_east border_south border_west
        overlap_east overlap_south width_mm height_mm).pages_vertical =
      min (pages width_mm (paper.width - (border_east + border_west)) overlap_east *
            pages height_mm (paper.height - (border_north + border_south)) overlap_south)
          (pages width_mm (paper.height - (border_north + border_south)) overlap_south *
            pages height_mm (paper.width - (border_east + border_west)) overlap_east) ∧
    (pages width_mm (paper.width - (border_east + border_west)) overlap_east *
        pages height_mm (paper.height - (border_north + border_south)) overlap_south =
      pages width_mm (paper.height - (border_north + border_south)) overlap_south *
        pages height_mm (paper.width - (border_east + border_west)) overlap_east →
      (get_page_size paper border_north border_east border_south border_west
        overlap_east overlap_south width_mm height_mm).orientation = "P") := by
  simp only [get_page_size]
  split
  · rename_i hgt
    refine ⟨?_, ?_⟩
    · exact (min_eq_right (le_of_lt hgt)).symm
    · intro heq
      omega
  · rename_i hle
    push_neg at hle
    refine ⟨?_, fun _ => rfl⟩
    exact (min_eq_left hle).symm

theorem claim_C1_witness :
    0 < A4.width - ((5 : ℚ) + 5) ∧ 0 < A4.height - ((5 : ℚ) + 5) ∧
    ((get_page_size A4 5 5 5 5 10 10 415 100).pages_horizontal *
        (get_page_size A4 5 5 5 5 10 10 415 100).pages_vertical =
      min (pages 415 (A4.width - (5 + 5)) 10 * pages 100 (A4.height - (5 + 5)) 10)
          (pages 415 (A4.height - (5 + 5)) 10 * pages 100 (A4.width - (5 + 5)) 10) ∧
      (pages 415 (A4.width - (5 + 5)) 10 * pages 100 (A4.height - (5 + 5)) 10 =
        pages 415 (A4.height - (5 + 5)) 10 * pages 100 (A4.width - (5 + 5)) 10 →
        (get_page_size A4 5 5 5 5 10 10 415 100).orientation = "P")) :=
  ⟨by norm_num [A4], by norm_num [A4],
    claim_C1_orientation_minimal A4 5 5 5 5 10 10 415 100
      (by norm_num [A4]) (by norm_num [A4])⟩

/-- Claim C4: for the chosen orientation, the returned printable page width
(resp. height) is the orientation's printable span minus the corresponding
overlap on an axis with more than one page, and the unchanged span on an axis
with exactly one page. -/
theorem claim_C4_overlap_shrink (paper : PaperSize)
    (border_north border_east border_south border_west
      overlap_east overlap_south width_mm height_mm : ℚ)
    (hpw : 0 < paper.width - (border_east + border_west))
    (hph : 0 < paper.height - (border_north + border_south)) :
    ((get_page_size paper border_north border_east border_south border_west
        overlap_east overlap_south width_mm height_mm).orientation = "P" →
      ((get_page_size paper border_north border_east border_south border_west
          overlap_east overlap_south width_mm height_mm).pages_horizontal = 1 →
        (get_page_size paper border_north border_east border_south border_west
          overlap_east overlap_south width_mm height_mm).page_width =
          paper.width - (border_east + border_west)) ∧
      ((get_page_size paper border_north border_east border_south border_west
          overlap_east overlap_south width_mm height_mm).pages_horizontal ≠ 1 →
        (get_page_size paper border_north border_east border_south border_west
          overlap_east overlap_south width_mm height_mm).page_width =
          paper.width - (border_east + border_west) - overlap_east) ∧
      ((get_page_size paper border_north border_east border_south border_west
          overlap_east overlap_south width_mm height_mm).pages_vertical = 1 →
        (get_page_size paper border_north border_east border_south border_west
          overlap_east overlap_south width_mm height_mm).page_height =
          paper.height - (border_north + border_south)) ∧
      ((get_page_size paper border_north border_east border_south border_west
          overlap_east overlap_south width_mm height_mm).pages_vertical ≠ 1 →
        (get_page_size paper border_north border_east border_south border_west
          overlap_east overlap_south width_mm height_mm).page_height =
          paper.height - (border_north + border_south) - overlap_south)) ∧
    ((get_page_size paper border_north border_east border_south border_west
        overlap_east overlap_south width_mm height_mm).orientation = "L" →
      ((get_page_size paper border_north border_east border_south border_west
          overlap_east overlap_south width_mm height_mm).pages_horizontal = 1 →
        (get_page_size paper border_north border_east border_south border_west
          overlap_east overlap_south width_mm height_mm).page_width =
          paper.height - (border_north + border_south)) ∧
      ((get_page_size paper border_north border_east border_south border_west
          overlap_east overlap_south width_mm height_mm).pages_horizontal ≠ 1 →
        (get_page_size paper border_north border_east border_south border_west
          overlap_east overlap_south width_mm height_mm).page_width =
          paper.height - (border_north + border_south) - overlap_south) ∧
      ((get_page_size paper border_north border_east border_south border_west
          overlap_east overlap_south width_mm height_mm).pages_vertical = 1 →
        (get_page_size paper border_north border_east border_south border_west
          overlap_east overlap_south width_mm height_mm).page_height =
          paper.width - (border_east + border_west)) ∧
      ((get_page_size paper border_north border_east border_south border_west
          overlap_east overlap_south width_mm height_mm).pages_vertical ≠ 1 →
        (get_page_size paper border_north border_east border_south border_west
          overlap_east overlap_south width_mm height_mm).page_height =
          paper.width - (border_east + border_west) - overlap_east)) := by
  simp only [get_page_size]
  split
  · dsimp only
    refine ⟨fun hc => absurd hc (by decide), fun _ => ⟨?_, ?_, ?_, ?_⟩⟩ <;> intro h1
    · rw [h1, zero_if_one_one, sub_zero]
    · rw [zero_if_one, if_neg h1]
    · rw [h1, zero_if_one_one, sub_zero]
    · rw [zero_if_one, if_neg h1]
  · dsimp only
    refine ⟨fun _ => ⟨?_, ?_, ?_, ?_⟩, fun hc => absurd hc (by decide)⟩ <;> intro h1
    · rw [h1, zero_if_one_one, sub_zero]
    · rw [zero_if_one, if_neg h1]
    · rw [h1, zero_if_one_one, sub_zero]
    · rw [zero_if_one, if_neg h1]

theorem claim_C4_witness :
    0 < A4.width - ((5 : ℚ) + 5) ∧ 0 < A4.height - ((5 : ℚ) + 5) ∧
    (((get_page_size A4 5 5 5 5 10 10 415 100).orientation = "P" →
      ((get_page_size A4 5 5 5 5 10 10 415 100).pages_horizontal = 1 →
        (get_page_size A4 5 5 5 5 10 10 415 100).page_width = A4.width - (5 + 5)) ∧
      ((get_page_size A4 5 5 5 5 10 10 415 100).pages_horizontal ≠ 1 →
        (get_page_size A4 5 5 5 5 10 10 415 100).page_width = A4.width - (5 + 5) - 10) ∧
      ((get_page_size A4 5 5 5 5 10 10 415 100).pages_vertical = 1 →
        (get_page_size A4 5 5 5 5 10 10 415 100).page_height = A4.height - (5 + 5)) ∧
      ((get_page_size A4 5 5 5 5 10 10 415 100).pages_vertical ≠ 1 →
        (get_page_size A4 5 5 5 5 10 10 415 100).page_height = A4.height - (5 + 5) - 10)) ∧
    ((get_page_size A4 5 5 5 5 10 10 415 100).orientation = "L" →
      ((get_page_size A4 5 5 5 5 10 10 415 100).pages_horizontal = 1 →
        (get_page_size A4 5 5 5 5 10 10 415 100).page_width = A4.height - (5 + 5)) ∧
      ((get_page_size A4 5 5 5 5 10 10 415 100).pages_horizontal ≠ 1 →
        (get_page_size A4 5 5 5 5 10 10 415 100).page_width = A4.height - (5 + 5) - 10) ∧
      ((get_page_size A4 5 5 5 5 10 10 415 100).pages_vertical = 1 →
        (get_page_size A4 5 5 5 5 10 10 415 100).page_height = A4.width - (5 + 5)) ∧
      ((get_page_size A4 5 5 5 5 10 10 415 100).pages_vertical ≠ 1 →
        (get_page_size A4 5 5 5 5 10 10 415 100).page_height = A4.width - (5 + 5) - 10))) :=
  ⟨by norm_num [A4], by norm_num [A4],
    claim_C4_overlap_shrink A4 5 5 5 5 10 10 415 100 (by norm_num [A4]) (by norm_num [A4])⟩

lemma get_page_size_self (w h : ℚ) (nm : String) (hw : 0 < w) (hh : 0 < h) :
    (get_page_size ⟨w, h, nm⟩ 0 0 0 0 0 0 w h).pages_horizontal = 1 ∧
    (get_page_size ⟨w, h, nm⟩ 0 0 0 0 0 0 w h).pages_vertical = 1 := by
  have hw0 : (⟨w, h, nm⟩ : PaperSize).width - ((0 : ℚ) + 0) = w := by simp
  have hh0 : (⟨w, h, nm⟩ : PaperSize).height - ((0 : ℚ) + 0) = h := by simp
  have hpp : pages w w 0 = 1 := pages_eq_one_of_le hw hw le_rfl
  have hvv : pages h h 0 = 1 := pages_eq_one_of_le hh hh le_rfl
  have hl1 : 1 ≤ pages w h 0 := one_le_pages hw hh le_rfl
  have hl2 : 1 ≤ pages h w 0 := one_le_pages hh hw le_rfl
  have hprod : 1 ≤ pages w h 0 * pages h w 0 := by
    calc (1 : ℤ) = 1 * 1 := by ring
    _ ≤ pages w h 0 * pages h w 0 :=
        mul_le_mul hl1 hl2 (by norm_num) (by omega)
  rw [get_page_size_eval hw0 hh0 hpp hvv rfl rfl]
  rw [if_neg (by omega)]
  exact ⟨rfl, rfl⟩

/-- Claim C9: round-trip of the planner — re-planning with a plan's own
printable page dimensions as the paper size, zero borders and zero overlap,
and an image of exactly those dimensions, yields a 1 x 1 layout. -/
theorem claim_C9_roundtrip (paper : PaperSize)
    (border_north border_east border_south border_west
      overlap_east overlap_south width_mm height_mm : ℚ)
    (hpw : 0 < paper.width - (border_east + border_west))
    (hph : 0 < paper.height - (border_north + border_south))
    (hw : 0 < (get_page_size paper border_north border_east border_south border_west
      overlap_east overlap_south width_mm height_mm).page_width)
    (hh : 0 < (get_page_size paper border_north border_east border_south border_west
      overlap_east overlap_south width_mm height_mm).page_height) :
    (get_page_size
        ⟨(get_page_size paper border_north border_east border_south border_west
            overlap_east overlap_south width_mm height_mm).page_width,
          (get_page_size paper border_north border_east border_south border_west
            overlap_east overlap_south width_mm height_mm).page_height, "custom"⟩
        0 0 0 0 0 0
        (get_page_size paper border_north border_east border_south border_west
          overlap_east overlap_south width_mm height_mm).page_width
        (get_page_size paper border_north border_east border_south border_west
          overlap_east overlap_south width_mm height_mm).page_height).pages_horizontal = 1 ∧
    (get_page_size
        ⟨(get_page_size paper border_north border_east border_south border_west
            overlap_east overlap_south width_mm height_mm).page_width,
          (get_page_size paper border_north border_east border_south border_west
            overlap_east overlap_south width_mm height_mm).page_height, "custom"⟩
        0 0 0 0 0 0
        (get_page_size paper border_north border_east border_south border_west
          overlap_east overlap_south width_mm height_mm).page_width
        (get_page_size paper border_north border_east border_south border_west
          overlap_east overlap_south width_mm height_mm).page_height).pages_vertical = 1 :=
  get_page_size_self _ _ _ hw hh

theorem claim_C9_witness :
    0 < A4.width - ((5 : ℚ) + 5) ∧ 0 < A4.height - ((5 : ℚ) + 5) ∧
    0 < (get_page_size A4 5 5 5 5 10 10 415 100).page_width ∧
    0 < (get_page_size A4 5 5 5 5 10 10 415 100).page_height ∧
    ((get_page_size
        ⟨(get_page_size A4 5 5 5 5 10 10 415 100).page_width,
          (get_page_size A4 5 5 5 5 10 10 415 100).page_height, "custom"⟩
        0 0 0 0 0 0
        (get_page_size A4 5 5 5 5 10 10 415 100).page_width
        (get_page_size A4 5 5 5 5 10 10 415 100).page_height).pages_horizontal = 1 ∧
      (get_page_size
        ⟨(get_page_size A4 5 5 5 5 10 10 415 100).page_width,
          (get_page_size A4 5 5 5 5 10 10 415 100).page_height, "custom"⟩
        0 0 0 0 0 0
        (get_page_size A4 5 5 5 5 10 10 415 100).page_width
        (get_page_size A4 5 5 5 5 10 10 415 100).page_height).pages_vertical = 1) :=
  ⟨by norm_num [A4], by norm_num [A4],
    by rw [get_page_size_inst_A]; norm_num,
    by rw [get_page_size_inst_A]; norm_num,
    claim_C9_roundtrip A4 5 5 5 5 10 10 415 100 (by norm_num [A4]) (by norm_num [A4])
      (by rw [get_page_size_inst_A]; norm_num)
      (by rw [get_page_size_inst_A]; norm_num)⟩

/-- Claim C5 counterexample: on A4 with 120mm east and west borders (both far
beyond the 105mm half width, so the spec-modelled `plan` must reject the
configuration), the source's planner raises nothing and returns an ordinary
tuple — a "portrait" layout of -5 x 1 pages with page width -40mm. -/
theorem claim_C5_counterexample :
    plan_spec A4 5 120 5 120 10 10 100 100 = .error .invalidGeometry ∧
    get_page_size A4 5 120 5 120 10 10 100 100 = ⟨"P", -5, 1, -40, 287⟩ := by
  constructor
  · rw [plan_spec, if_pos]
    norm_num [A4]
  · exact get_page_size_inst_B

/-- Claim C5 amended: the source performs no geometry validation at all.
`get_page_size` is a total function; when the borders are so large that even
`printable_width + overlap_east` is negative (while the height axis stays
positive), it silently returns a degenerate plan whose total page count is
non-positive, instead of failing with `InvalidGeometryError`. -/
theorem claim_C5_amended (paper : PaperSize)
    (border_north border_east border_south border_west
      overlap_east overlap_south width_mm height_mm : ℚ)
    (hw : 0 < width_mm) (hh : 0 < height_mm)
    (hoe : 0 ≤ overlap_east) (hos : 0 ≤ overlap_south)
    (hbad : paper.width - (border_east + border_west) + overlap_east < 0)
    (hph : 0 < paper.height - (border_north + border_south)) :
    (get_page_size paper border_north border_east border_south border_west
        overlap_east overlap_south width_mm height_mm).pages_horizontal *
      (get_page_size paper border_north border_east border_south border_west
        overlap_east overlap_south width_mm height_mm).pages_vertical ≤ 0 := by
  have hpwneg : paper.width - (border_east + border_west) < 0 := by linarith
  have hP : pages width_mm (paper.width - (border_east + border_west)) overlap_east ≤ 0 := by
    unfold pages
    split
    · rename_i hc
      exfalso
      have hlt : width_mm / (paper.width - (border_east + border_west)) < 0 :=
        div_neg_of_pos_of_neg hw hpwneg
      have : ⌈width_mm / (paper.width - (border_east + border_west))⌉ ≤ 0 :=
        Int.ceil_le.mpr (by exact_mod_cast hlt.le)
      omega
    · have hlt : width_mm / (paper.width - (border_east + border_west) + overlap_east) < 0 :=
        div_neg_of_pos_of_neg hw hbad
      exact Int.ceil_le.mpr (by exact_mod_cast hlt.le)
  have hVl : pages height_mm (paper.width - (border_east + border_west)) overlap_east ≤ 0 := by
    unfold pages
    split
    · rename_i hc
      exfalso
      have hlt : height_mm / (paper.width - (border_east + border_west)) < 0 :=
        div_neg_of_pos_of_neg hh hpwneg
      have : ⌈height_mm / (paper.width - (border_east + border_west))⌉ ≤ 0 :=
        Int.ceil_le.mpr (by exact_mod_cast hlt.le)
      omega
    · have hlt : height_mm / (paper.width - (border_east + border_west) + overlap_east) < 0 :=
        div_neg_of_pos_of_neg hh hbad
      exact Int.ceil_le.mpr (by exact_mod_cast hlt.le)
  have hvP : 1 ≤ pages height_mm (paper.height - (border_north + border_south)) overlap_south :=
    one_le_pages hh hph hos
  have hPl : 1 ≤ pages width_mm (paper.height - (border_north + border_south)) overlap_south :=
    one_le_pages hw hph hos
  have hprodP : pages width_mm (paper.width - (border_east + border_west)) overlap_east *
      pages height_mm (paper.height - (border_north + border_south)) overlap_south ≤ 0 := by
    have := mul_le_mul_of_nonneg_right hP
      (show (0 : ℤ) ≤ pages height_mm (paper.height - (border_north + border_south)) overlap_south
        by omega)
    simpa using this
  have hprodL : pages width_mm (paper.height - (border_north + border_south)) overlap_south *
      pages height_mm (paper.width - (border_east + border_west)) overlap_east ≤ 0 := by
    have := mul_le_mul_of_nonneg_left hVl
      (show (0 : ℤ) ≤ pages width_mm (paper.height - (border_north + border_south)) overlap_south
        by omega)
    simpa using this
  simp only [get_page_size]
  split
  · exact hprodL
  · exact hprodP

theorem claim_C5_witness :
    0 < (100 : ℚ) ∧ 0 ≤ (10 : ℚ) ∧
    A4.width - ((120 : ℚ) + 120) + 10 < 0 ∧ 0 < A4.height - ((5 : ℚ) + 5) ∧
    (get_page_size A4 5 120 5 120 10 10 100 100).pages_horizontal *
      (get_page_size A4 5 120 5 120 10 10 100 100).pages_vertical ≤ 0 :=
  ⟨by norm_num, by norm_num, by norm_num [A4], by norm_num [A4],
    claim_C5_amended A4 5 120 5 120 10 10 100 100 (by norm_num) (by norm_num)
      (by norm_num) (by norm_num) (by norm_num [A4]) (by norm_num [A4])⟩

/-- Claim C6 counterexample: for a 2000 x 1000 pixel image declared as
20 x 20 one-inch squares, the computed scale is the minimum of the two axis
scales, but dividing the width by it gives 1016mm, which exceeds the intended
physical width of 20 x 25.4 = 508mm: the min rule over-sizes, it does not
prevent exceeding. -/
theorem claim_C6_counterexample :
    pixels_per_mm 2000 1000 20 20 =
      min ((2000 : ℚ) / (20 * 25.4)) ((1000 : ℚ) / (20 * 25.4)) ∧
    ¬ ((2000 : ℚ) / pixels_per_mm 2000 1000 20 20 ≤ 20 * 25.4) := by
  have hval : pixels_per_mm 2000 1000 20 20 = 250 / 127 := by
    rw [pixels_per_mm, min_def]
    norm_num
  refine ⟨rfl, ?_⟩
  rw [hval]
  norm_num

/-- Claim C6 amended: the scale is
`min(width_px/(squares_wide*25.4), height_px/(squares_high*25.4))`, and under
it neither converted axis falls short of its intended physical size: each
axis converts to at least `squares * 25.4` mm, the axis attaining the min
converts exactly, and at most one axis is over-sized — never under-sized. -/
theorem claim_C6_amended (width_pixels height_pixels squares_wide squares_high : ℚ)
    (hw : 0 < width_pixels) (hh : 0 < height_pixels)
    (hsw : 0 < squares_wide) (hsh : 0 < squares_high) :
    pixels_per_mm width_pixels height_pixels squares_wide squares_high =
      min (width_pixels / (squares_wide * 25.4)) (height_pixels / (squares_high * 25.4)) ∧
    squares_wide * 25.4 ≤
      width_pixels / pixels_per_mm width_pixels height_pixels squares_wide squares_high ∧
    squares_high * 25.4 ≤
      height_pixels / pixels_per_mm width_pixels height_pixels squares_wide squares_high ∧
    (width_pixels / pixels_per_mm width_pixels height_pixels squares_wide squares_high =
        squares_wide * 25.4 ∨
      height_pixels / pixels_per_mm width_pixels height_pixels squares_wide squares_high =
        squares_high * 25.4) := by
  have hsw' : (0 : ℚ) < squares_wide * 25.4 := by positivity
  have hsh' : (0 : ℚ) < squares_high * 25.4 := by positivity
  have ha : (0 : ℚ) < width_pixels / (squares_wide * 25.4) := div_pos hw hsw'
  have hb : (0 : ℚ) < height_pixels / (squares_high * 25.4) := div_pos hh hsh'
  have hmin : (0 : ℚ) <
      min (width_pixels / (squares_wide * 25.4)) (height_pixels / (squares_high * 25.4)) :=
    lt_min ha hb
  have hwa : width_pixels / (width_pixels / (squares_wide * 25.4)) = squares_wide * 25.4 := by
    field_simp
  have hhb : height_pixels / (height_pixels / (squares_high * 25.4)) = squares_high * 25.4 := by
    field_simp
  refine ⟨rfl, ?_, ?_, ?_⟩
  · rw [pixels_per_mm, le_div_iff hmin, mul_comm]
    exact (le_div_iff hsw').mp (min_le_left _ _)
  · rw [pixels_per_mm, le_div_iff hmin, mul_comm]
    exact (le_div_iff hsh').mp (min_le_right _ _)
  · rcases min_cases (width_pixels / (squares_wide * 25.4))
      (height_pixels / (squares_high * 25.4)) with ⟨heq, _⟩ | ⟨heq, _⟩
    · left
      rw [pixels_per_mm, heq, hwa]
    · right
      rw [pixels_per_mm, heq, hhb]

theorem claim_C6_witness :
    0 < (2000 : ℚ) ∧ 0 < (1000 : ℚ) ∧ 0 < (20 : ℚ) ∧
    (pixels_per_mm 2000 1000 20 20 =
        min ((2000 : ℚ) / (20 * 25.4)) ((1000 : ℚ) / (20 * 25.4)) ∧
      (20 : ℚ) * 25.4 ≤ 2000 / pixels_per_mm 2000 1000 20 20 ∧
      (20 : ℚ) * 25.4 ≤ 1000 / pixels_per_mm 2000 1000 20 20 ∧
      ((2000 : ℚ) / pixels_per_mm 2000 1000 20 20 = 20 * 25.4 ∨
        (1000 : ℚ) / pixels_per_mm 2000 1000 20 20 = 20 * 25.4)) :=
  ⟨by norm_num, by norm_num, by norm_num,
    claim_C6_amended 2000 1000 20 20 (by norm_num) (by norm_num) (by norm_num) (by norm_num)⟩

/-- Claim C7: for an anchor inside the sheet, each of the four tick lines
reaches exactly to the sheet edge when the anchor is within one mark-length
(`size`) of that edge in the mark's direction, and otherwise runs from the
fixed `gap` offset to the fixed `size` offset; in both cases the far endpoint
never lies beyond the paper boundary. -/
theorem claim_C7_tick_clamp (page_width page_height x y size gap : ℚ) (d : Bool)
    (hx0 : 0 ≤ x) (hxw : x ≤ page_width) (hy0 : 0 ≤ y) (hyh : y ≤ page_height)
    (hs : 0 < size) :
    ∃ wEnd eEnd nEnd sEnd : ℚ,
      tick page_width page_height x y size gap true true true true d =
        [⟨x - gap, y, wEnd, y, d⟩, ⟨x + gap, y, eEnd, y, d⟩,
         ⟨x, y - gap, x, nEnd, d⟩, ⟨x, y + gap, x, sEnd, d⟩] ∧
      ((x ≤ size → wEnd = 0) ∧ (size < x → wEnd = x - size) ∧
        0 ≤ wEnd ∧ wEnd ≤ page_width) ∧
      ((page_width - x ≤ size → eEnd = page_width) ∧
        (size < page_width - x → eEnd = x + size) ∧ 0 ≤ eEnd ∧ eEnd ≤ page_width) ∧
      ((y ≤ size → nEnd = 0) ∧ (size < y → nEnd = y - size) ∧
        0 ≤ nEnd ∧ nEnd ≤ page_height) ∧
      ((page_height - y ≤ size → sEnd = page_height) ∧
        (size < page_height - y → sEnd = y + size) ∧ 0 ≤ sEnd ∧ sEnd ≤ page_height) := by
  refine ⟨if x ≤ size then 0 else x - size,
    if page_width - x ≤ size then page_width else x + size,
    if y ≤ size then 0 else y - size,
    if page_height - y ≤ size then page_height else y + size,
    ?_, ⟨fun h => if_pos h, fun h => if_neg (not_le.mpr h), ?_, ?_⟩,
    ⟨fun h => if_pos h, fun h => if_neg (not_le.mpr h), ?_, ?_⟩,
    ⟨fun h => if_pos h, fun h => if_neg (not_le.mpr h), ?_, ?_⟩,
    ⟨fun h => if_pos h, fun h => if_neg (not_le.mpr h), ?_, ?_⟩⟩
  · simp only [tick, if_true]
    split_ifs <;> simp
  · split_ifs with h <;> linarith
  · split_ifs with h <;> linarith
  · split_ifs with h <;> linarith
  · split_ifs with h <;> linarith
  · split_ifs with h <;> linarith
  · split_ifs with h <;> linarith
  · split_ifs with h <;> linarith
  · split_ifs with h <;> linarith

theorem claim_C7_witness :
    0 ≤ (5 : ℚ) ∧ (5 : ℚ) ≤ 210 ∧ 0 ≤ (5 : ℚ) ∧ (5 : ℚ) ≤ 297 ∧ 0 < (5 : ℚ) ∧
    (∃ wEnd eEnd nEnd sEnd : ℚ,
      tick 210 297 5 5 5 1 true true true true false =
        [⟨5 - 1, 5, wEnd, 5, false⟩, ⟨5 + 1, 5, eEnd, 5, false⟩,
         ⟨5, 5 - 1, 5, nEnd, false⟩, ⟨5, 5 + 1, 5, sEnd, false⟩] ∧
      (((5 : ℚ) ≤ 5 → wEnd = 0) ∧ ((5 : ℚ) < 5 → wEnd = 5 - 5) ∧
        0 ≤ wEnd ∧ wEnd ≤ 210) ∧
      (((210 : ℚ) - 5 ≤ 5 → eEnd = 210) ∧ ((5 : ℚ) < 210 - 5 → eEnd = 5 + 5) ∧
        0 ≤ eEnd ∧ eEnd ≤ 210) ∧
      (((5 : ℚ) ≤ 5 → nEnd = 0) ∧ ((5 : ℚ) < 5 → nEnd = 5 - 5) ∧
        0 ≤ nEnd ∧ nEnd ≤ 297) ∧
      (((297 : ℚ) - 5 ≤ 5 → sEnd = 297) ∧ ((5 : ℚ) < 297 - 5 → sEnd = 5 + 5) ∧
        0 ≤ sEnd ∧ sEnd ≤ 297)) :=
  ⟨by norm_num, by norm_num, by norm_num, by norm_num, by norm_num,
    claim_C7_tick_clamp 210 297 5 5 5 1 false (by norm_num) (by norm_num)
      (by norm_num) (by norm_num) (by norm_num)⟩

/-- Claim C8: the dashed east-edge pair of `tick` invocations is present
exactly when the tile is not in the last column, the dashed south-edge pair
exactly when it is not in the last row, and the four solid corner ticks are
always present; last-row/column status comes from the grid coordinates. -/
theorem claim_C8_dashed_marks (border_north border_east border_south border_west
    im_width_mm im_height_mm page_width page_height : ℚ) (x y nh nv : ℤ)
    (hx : x < nh) (hy : y < nv) :
    (((⟨page_width - border_east, im_height_mm + border_north,
          false, false, true, false, true⟩ : Tick) ∈
        tile_ticks border_north border_east border_south border_west
          im_width_mm im_height_mm page_width page_height x y nh nv ∧
      (⟨page_width - border_east, border_north, true, false, false, false, true⟩ : Tick) ∈
        tile_ticks border_north border_east border_south border_west
          im_width_mm im_height_mm page_width page_height x y nh nv) ↔ x < nh - 1) ∧
    (((⟨border_west, page_height - border_south, false, false, false, true, true⟩ : Tick) ∈
        tile_ticks border_north border_east border_south border_west
          im_width_mm im_height_mm page_width page_height x y nh nv ∧
      (⟨border_west + im_width_mm, page_height - border_south,
          false, true, false, false, true⟩ : Tick) ∈
        tile_ticks border_north border_east border_south border_west
          im_width_mm im_height_mm page_width page_height x y nh nv) ↔ y < nv - 1) ∧
    (⟨border_west, border_north, true, false, false, true, false⟩ : Tick) ∈
      tile_ticks border_north border_east border_south border_west
        im_width_mm im_height_mm page_width page_height x y nh nv ∧
    (⟨border_west, border_north + im_height_mm, false, false, true, true, false⟩ : Tick) ∈
      tile_ticks border_north border_east border_south border_west
        im_width_mm im_height_mm page_width page_height x y nh nv ∧
    (⟨border_west + im_width_mm, border_north + im_height_mm,
        false, true, true, false, false⟩ : Tick) ∈
      tile_ticks border_north border_east border_south border_west
        im_width_mm im_height_mm page_width page_height x y nh nv ∧
    (⟨border_west + im_width_mm, border_north, true, true, false, false, false⟩ : Tick) ∈
      tile_ticks border_north border_east border_south border_west
        im_width_mm im_height_mm page_width page_height x y nh nv := by
  by_cases hlx : x = nh - 1 <;> by_cases hly : y = nv - 1 <;>
    simp [tile_ticks, hlx, hly] <;> omega

theorem claim_C8_witness :
    (0 : ℤ) < 2 ∧ (0 : ℤ) < 1 ∧
    ((((⟨200 - 5, 90 + 5, false, false, true, false, true⟩ : Tick) ∈
        tile_ticks 5 5 5 5 180 90 200 287 0 0 2 1 ∧
      (⟨200 - 5, 5, true, false, false, false, true⟩ : Tick) ∈
        tile_ticks 5 5 5 5 180 90 200 287 0 0 2 1) ↔ (0 : ℤ) < 2 - 1) ∧
    (((⟨5, 287 - 5, false, false, false, true, true⟩ : Tick) ∈
        tile_ticks 5 5 5 5 180 90 200 287 0 0 2 1 ∧
      (⟨5 + 180, 287 - 5, false, true, false, false, true⟩ : Tick) ∈
        tile_ticks 5 5 5 5 180 90 200 287 0 0 2 1) ↔ (0 : ℤ) < 1 - 1) ∧
    (⟨5, 5, true, false, false, true, false⟩ : Tick) ∈
      tile_ticks 5 5 5 5 180 90 200 287 0 0 2 1 ∧
    (⟨5, 5 + 90, false, false, true, true, false⟩ : Tick) ∈
      tile_ticks 5 5 5 5 180 90 200 287 0 0 2 1 ∧
    (⟨5 + 180, 5 + 90, false, true, true, false, false⟩ : Tick) ∈
      tile_ticks 5 5 5 5 180 90 200 287 0 0 2 1 ∧
    (⟨5 + 180, 5, true, true, false, false, false⟩ : Tick) ∈
      tile_ticks 5 5 5 5 180 90 200 287 0 0 2 1) :=
  ⟨by norm_num, by norm_num,
    claim_C8_dashed_marks 5 5 5 5 180 90 200 287 0 0 2 1 (by norm_num) (by norm_num)⟩

lemma get_page_size_cases (paper : PaperSize) (bn be bs bw oe os w h : ℚ) :
    get_page_size paper bn be bs bw oe os w h =
      ⟨"P", pages w (paper.width - (be + bw)) oe, pages h (paper.height - (bn + bs)) os,
        paper.width - (be + bw) - zero_if_one (pages w (paper.width - (be + bw)) oe) oe,
        paper.height - (bn + bs) -
          zero_if_one (pages h (paper.height - (bn + bs)) os) os⟩ ∨
    get_page_size paper bn be bs bw oe os w h =
      ⟨"L", pages w (paper.height - (bn + bs)) os, pages h (paper.width - (be + bw)) oe,
        paper.height - (bn + bs) - zero_if_one (pages w (paper.height - (bn + bs)) os) os,
        paper.width - (be + bw) - zero_if_one (pages h (paper.width - (be + bw)) oe) oe⟩ := by
  rw [get_page_size]
  split
  · exact Or.inr rfl
  · exact Or.inl rfl

lemma pixels_per_mm_pos {w h sw sh : ℚ} (hw : 0 < w) (hh : 0 < h)
    (hsw : 0 < sw) (hsh : 0 < sh) : 0 < pixels_per_mm w h sw sh := by
  have h1 : (0 : ℚ) < w / (sw * 25.4) := div_pos hw (by positivity)
  have h2 : (0 : ℚ) < h / (sh * 25.4) := div_pos hh (by positivity)
  exact lt_min h1 h2

/-- Claim C10: when the planner selects a 1 x 1 layout, `split_image` yields a
single tile whose crop box is exactly the whole image, `(0, 0)` to
`(width_pixels, height_pixels)`. -/
theorem claim_C10_single_tile (width_pixels height_pixels squares_wide squares_high
    border_north border_east border_south border_west overlap_east overlap_south : ℚ)
    (paper : PaperSize)
    (hw : 0 < width_pixels) (hh : 0 < height_pixels)
    (hsw : 0 < squares_wide) (hsh : 0 < squares_high)
    (hoe : 0 ≤ overlap_east) (hos : 0 ≤ overlap_south)
    (hpw : 0 < paper.width - (border_east + border_west))
    (hph : 0 < paper.height - (border_north + border_south)) :
    (split_image width_pixels height_pixels squares_wide squares_high
        border_north border_east border_south border_west
        overlap_east overlap_south paper).pages_horizontal = 1 →
    (split_image width_pixels height_pixels squares_wide squares_high
        border_north border_east border_south border_west
        overlap_east overlap_south paper).pages_vertical = 1 →
    (split_image width_pixels height_pixels squares_wide squares_high
        border_north border_east border_south border_west
        overlap_east overlap_south paper).tiles =
      [(0, 0, ⟨0, 0, width_pixels, height_pixels⟩)] := by
  have hppm : 0 < pixels_per_mm width_pixels height_pixels squares_wide squares_high :=
    pixels_per_mm_pos hw hh hsw hsh
  have hwp : width_pixels /
      pixels_per_mm width_pixels height_pixels squares_wide squares_high *
      pixels_per_mm width_pixels height_pixels squares_wide squares_high = width_pixels :=
    div_mul_cancel₀ width_pixels (ne_of_gt hppm)
  have hhp : height_pixels /
      pixels_per_mm width_pixels height_pixels squares_wide squares_high *
      pixels_per_mm width_pixels height_pixels squares_wide squares_high = height_pixels :=
    div_mul_cancel₀ height_pixels (ne_of_gt hppm)
  rcases get_page_size_cases paper border_north border_east border_south border_west
      overlap_east overlap_south
      (width_pixels / pixels_per_mm width_pixels height_pixels squares_wide squares_high)
      (height_pixels / pixels_per_mm width_pixels height_pixels squares_wide squares_high)
    with hr | hr <;>
    simp only [split_image] <;> rw [hr] <;> dsimp only <;> intro h1 h2 <;>
    rw [h1, h2, zero_if_one_one, zero_if_one_one, sub_zero, sub_zero]
  · have hle : width_pixels /
        pixels_per_mm width_pixels height_pixels squares_wide squares_high ≤
        paper.width - (border_east + border_west) + overlap_east :=
      le_of_pages_eq_one hpw hoe h1
    have hle2 : height_pixels /
        pixels_per_mm width_pixels height_pixels squares_wide squares_high ≤
        paper.height - (border_north + border_south) + overlap_south :=
      le_of_pages_eq_one hph hos h2
    have hminw : min width_pixels
        ((paper.width - (border_east + border_west)) *
            pixels_per_mm width_pixels height_pixels squares_wide squares_high +
          pixels_per_mm width_pixels height_pixels squares_wide squares_high * overlap_east) =
        width_pixels := by
      apply min_eq_left
      have := mul_le_mul_of_nonneg_right hle hppm.le
      rw [hwp] at this
      calc width_pixels ≤ (paper.width - (border_east + border_west) + overlap_east) *
            pixels_per_mm width_pixels height_pixels squares_wide squares_high := this
      _ = _ := by ring
    have hminh : min height_pixels
        ((paper.height - (border_north + border_south)) *
            pixels_per_mm width_pixels height_pixels squares_wide squares_high +
          pixels_per_mm width_pixels height_pixels squares_wide squares_high * overlap_south) =
        height_pixels := by
      apply min_eq_left
      have := mul_le_mul_of_nonneg_right hle2 hppm.le
      rw [hhp] at this
      calc height_pixels ≤ (paper.height - (border_north + border_south) + overlap_south) *
            pixels_per_mm width_pixels height_pixels squares_wide squares_high := this
      _ = _ := by ring
    simp [crop_for, List.range_succ, hminw, hminh]
  · have hle : width_pixels /
        pixels_per_mm width_pixels height_pixels squares_wide squares_high ≤
        paper.height - (border_north + border_south) + overlap_south :=
      le_of_pages_eq_one hph hos h1
    have hle2 : height_pixels /
        pixels_per_mm width_pixels height_pixels squares_wide squares_high ≤
        paper.width - (border_east + border_west) + overlap_east :=
      le_of_pages_eq_one hpw hoe h2
    have hminw : min width_pixels
        ((paper.height - (border_north + border_south)) *
            pixels_per_mm width_pixels height_pixels squares_wide squares_high +
          pixels_per_mm width_pixels height_pixels squares_wide squares_high * overlap_south) =
        width_pixels := by
      apply min_eq_left
      have := mul_le_mul_of_nonneg_right hle hppm.le
      rw [hwp] at this
      calc width_pixels ≤ (paper.height - (border_north + border_south) + overlap_south) *
            pixels_per_mm width_pixels height_pixels squares_wide squares_high := this
      _ = _ := by ring
    have hminh : min height_pixels
        ((paper.width - (border_east + border_west)) *
            pixels_per_mm width_pixels height_pixels squares_wide squares_high +
          pixels_per_mm width_pixels height_pixels squares_wide squares_high * overlap_east) =
        height_pixels := by
      apply min_eq_left
      have := mul_le_mul_of_nonneg_right hle2 hppm.le
      rw [hhp] at this
      calc height_pixels ≤ (paper.width - (border_east + border_west) + overlap_east) *
            pixels_per_mm width_pixels height_pixels squares_wide squares_high := this
      _ = _ := by ring
    simp [crop_for, List.range_succ, hminw, hminh]

lemma zero_if_one_le {n : ℤ} {v : ℚ} (hv : 0 ≤ v) : zero_if_one n v ≤ v := by
  unfold zero_if_one
  split <;> linarith

lemma page_dim_pos {span ov : ℚ} (n : ℤ) (hov : 0 ≤ ov) (hlt : ov < span) :
    0 < span - zero_if_one n ov := by
  have := zero_if_one_le (n := n) hov
  linarith

lemma length_grid {α : Type} (n m : ℕ) (g : ℕ → ℕ → α) :
    ((List.range n).bind fun x => (List.range m).map fun y => g x y).length = n * m := by
  induction n with
  | zero => simp
  | succ k ih => simp [List.range_succ, ih, Nat.succ_mul]

/-- One axis of the tiling: every point of the clipped span
`[0, min extent (n * step + ov)]` lies in one of the `n` intervals
`[x * step, min extent ((x+1) * step + ov)]`. -/
lemma cover1D {W a c : ℚ} {n : ℤ} (ha : 0 < a) (hc : 0 ≤ c) (hn : 1 ≤ n)
    {t : ℚ} (h0 : 0 ≤ t) (hE : t ≤ min W ((n : ℚ) * a + c)) :
    ∃ x : ℤ, 0 ≤ x ∧ x < n ∧ (x : ℚ) * a ≤ t ∧ t ≤ min W (((x : ℚ) + 1) * a + c) := by
  refine ⟨min (n - 1) ⌊t / a⌋, ?_, ?_, ?_, ?_⟩
  · exact le_min (by omega) (Int.floor_nonneg.mpr (div_nonneg h0 ha.le))
  · exact lt_of_le_of_lt (min_le_left _ _) (by omega)
  · rcases min_cases (n - 1) ⌊t / a⌋ with ⟨hmin, hle⟩ | ⟨hmin, hlt⟩
    · rw [hmin]
      have h1 : ((n : ℚ) - 1) ≤ t / a := by
        have h2 : ((n - 1 : ℤ) : ℚ) ≤ (⌊t / a⌋ : ℚ) := by exact_mod_cast hle
        have h3 : ((⌊t / a⌋ : ℤ) : ℚ) ≤ t / a := Int.floor_le _
        push_cast at h2
        linarith
      calc ((n - 1 : ℤ) : ℚ) * a = ((n : ℚ) - 1) * a := by push_cast; ring
        _ ≤ (t / a) * a := mul_le_mul_of_nonneg_right h1 ha.le
        _ = t := div_mul_cancel₀ t (ne_of_gt ha)
    · rw [hmin]
      calc ((⌊t / a⌋ : ℤ) : ℚ) * a ≤ (t / a) * a :=
          mul_le_mul_of_nonneg_right (Int.floor_le _) ha.le
        _ = t := div_mul_cancel₀ t (ne_of_gt ha)
  · refine le_min (le_trans hE (min_le_left _ _)) ?_
    rcases min_cases (n - 1) ⌊t / a⌋ with ⟨hmin, hle⟩ | ⟨hmin, hlt⟩
    · rw [hmin]
      have h1 : t ≤ (n : ℚ) * a + c := le_trans hE (min_le_right _ _)
      calc t ≤ (n : ℚ) * a + c := h1
        _ = (((n - 1 : ℤ) : ℚ) + 1) * a + c := by push_cast; ring
    · rw [hmin]
      have hfl : t / a < (⌊t / a⌋ : ℚ) + 1 := Int.lt_floor_add_one _
      have h2 : t < ((⌊t / a⌋ : ℚ) + 1) * a := by
        have h3 := mul_lt_mul_of_pos_right hfl ha
        rwa [div_mul_cancel₀ t (ne_of_gt ha)] at h3
      linarith

/-- The tile grid built from `crop_for`: tile count, staying inside the image,
and exact union of the crop boxes (the clipped box
`[0, min W (n*a+c)] x [0, min H (m*b+d)]`). -/
lemma tiles_spec (W H a b c d : ℚ) (n m : ℤ)
    (ha : 0 < a) (hb : 0 < b) (hc : 0 ≤ c) (hd : 0 ≤ d) (hn : 1 ≤ n) (hm : 1 ≤ m) :
    ((List.range n.toNat).bind fun (x : ℕ) => (List.range m.toNat).map fun (y : ℕ) =>
        ((x : ℤ), (y : ℤ), crop_for W H a b c d x y)).length = n.toNat * m.toNat ∧
    (∀ t ∈ (List.range n.toNat).bind fun (x : ℕ) => (List.range m.toNat).map fun (y : ℕ) =>
        ((x : ℤ), (y : ℤ), crop_for W H a b c d x y),
      0 ≤ t.2.2.left ∧ t.2.2.right ≤ W ∧ 0 ≤ t.2.2.top ∧ t.2.2.bottom ≤ H) ∧
    (∀ px py : ℚ,
      (0 ≤ px ∧ px ≤ min W ((n : ℚ) * a + c) ∧
        0 ≤ py ∧ py ≤ min H ((m : ℚ) * b + d)) ↔
      ∃ t ∈ (List.range n.toNat).bind fun (x : ℕ) => (List.range m.toNat).map fun (y : ℕ) =>
        ((x : ℤ), (y : ℤ), crop_for W H a b c d x y), rectContains t.2.2 px py) := by
  refine ⟨length_grid _ _ _, ?_, ?_⟩
  · intro t ht
    simp only [List.mem_bind, List.mem_map, List.mem_range] at ht
    obtain ⟨x, hx, y, hy, rfl⟩ := ht
    refine ⟨?_, min_le_left _ _, ?_, min_le_left _ _⟩
    · exact mul_nonneg (by positivity) ha.le
    · exact mul_nonneg (by positivity) hb.le
  · intro px py
    constructor
    · rintro ⟨hpx0, hpxE, hpy0, hpyE⟩
      obtain ⟨x, hx0, hxn, hxl, hxr⟩ := cover1D ha hc hn hpx0 hpxE
      obtain ⟨y, hy0, hyn, hyl, hyr⟩ := cover1D hb hd hm hpy0 hpyE
      refine ⟨((x.toNat : ℤ), (y.toNat : ℤ), crop_for W H a b c d x.toNat y.toNat), ?_, ?_⟩
      · simp only [List.mem_bind, List.mem_map, List.mem_range]
        exact ⟨x.toNat, by omega, y.toNat, by omega, rfl⟩
      · rw [show ((x.toNat : ℕ) : ℤ) = x from Int.toNat_of_nonneg hx0,
          show ((y.toNat : ℕ) : ℤ) = y from Int.toNat_of_nonneg hy0]
        exact ⟨hxl, hxr, hyl, hyr⟩
    · rintro ⟨t, ht, hcont⟩
      simp only [List.mem_bind, List.mem_map, List.mem_range] at ht
      obtain ⟨x, hx, y, hy, rfl⟩ := ht
      obtain ⟨h1, h2, h3, h4⟩ := hcont
      simp only [crop_for] at h1 h2 h3 h4
      have hxq : ((x : ℚ) + 1) ≤ (n : ℚ) := by
        have : (x : ℤ) + 1 ≤ n := by omega
        exact_mod_cast this
      have hyq : ((y : ℚ) + 1) ≤ (m : ℚ) := by
        have : (y : ℤ) + 1 ≤ m := by omega
        exact_mod_cast this
      have hxa : (0 : ℚ) ≤ (x : ℚ) * a := mul_nonneg (by positivity) ha.le
      have hya : (0 : ℚ) ≤ (y : ℚ) * b := mul_nonneg (by positivity) hb.le
      refine ⟨le_trans hxa h1, le_min (le_trans h2 (min_le_left _ _)) ?_,
        le_trans hya h3, le_min (le_trans h4 (min_le_left _ _)) ?_⟩
      · have h5 : px ≤ ((x : ℚ) + 1) * a + c := le_trans h2 (min_le_right _ _)
        have h6 : ((x : ℚ) + 1) * a ≤ (n : ℚ) * a := mul_le_mul_of_nonneg_right hxq ha.le
        linarith
      · have h5 : py ≤ ((y : ℚ) + 1) * b + d := le_trans h4 (min_le_right _ _)
        have h6 : ((y : ℚ) + 1) * b ≤ (m : ℚ) * b := mul_le_mul_of_nonneg_right hyq hb.le
        linarith

lemma ppm_inst_A : pixels_per_mm 415 100 (2075/127) (500/127) = 1 := by
  rw [pixels_per_mm, min_def]
  norm_num

/-- Concrete tiling run: a 415 x 100 pixel image at one pixel per mm
(squares 2075/127 x 500/127) on A4 with 5mm borders and 10mm overlaps.
The two tiles advance by 190px and stop at 390px < 415px. -/
lemma split_image_inst_A :
    split_image 415 100 (2075/127) (500/127) 5 5 5 5 10 10 A4 =
      ⟨1, [(0, 0, ⟨0, 0, 200, 100⟩), (1, 0, ⟨190, 0, 390, 100⟩)],
        "P", [5, 15, 15, 5], 2, 1, A4⟩ := by
  simp only [split_image, ppm_inst_A, div_one]
  rw [get_page_size_inst_A]
  norm_num [crop_for, min_def, SplitResult.mk.injEq]
  rw [show Int.toNat 2 = 2 from rfl]
  norm_num [List.range_succ]

/-- Claim C3 counterexample: in the concrete run `split_image_inst_A`, the
pixel `(400, 50)` lies inside the source image (415 x 100) but inside no
tile's crop box: the union of the crops does not cover the image. -/
theorem claim_C3_counterexample :
    (0 ≤ (400 : ℚ) ∧ (400 : ℚ) ≤ 415 ∧ 0 ≤ (50 : ℚ) ∧ (50 : ℚ) ≤ 100) ∧
    ∀ t ∈ (split_image 415 100 (2075/127) (500/127) 5 5 5 5 10 10 A4).tiles,
      ¬ rectContains t.2.2 400 50 := by
  refine ⟨by norm_num, ?_⟩
  rw [split_image_inst_A]
  intro t ht
  simp only [List.mem_cons, List.not_mem_nil, or_false] at ht
  rcases ht with rfl | rfl <;> simp [rectContains] <;> norm_num

/-- Claim C3 amended: with positive printable area and each overlap smaller
than its printable span, `split_image` yields exactly
`pages_horizontal * pages_vertical` tiles, every crop box stays inside the
source image, and the union of the crop boxes is exactly the clipped box
`[0, min W (pages_horizontal*page_w_px + overlap_e_px)] x
[0, min H (pages_vertical*page_h_px + overlap_s_px)]` — which can stop short
of the east/south image edges, so full coverage of the source is not
guaranteed. -/
theorem claim_C3_amended (width_pixels height_pixels squares_wide squares_high
    border_north border_east border_south border_west overlap_east overlap_south : ℚ)
    (paper : PaperSize) (S : SplitResult) (r : PageSizeResult) (a b c d : ℚ)
    (hw : 0 < width_pixels) (hh : 0 < height_pixels)
    (hsw : 0 < squares_wide) (hsh : 0 < squares_high)
    (hoe : 0 ≤ overlap_east) (hos : 0 ≤ overlap_south)
    (hpw : overlap_east < paper.width - (border_east + border_west))
    (hph : overlap_south < paper.height - (border_north + border_south))
    (hS : S = split_image width_pixels height_pixels squares_wide squares_high
      border_north border_east border_south border_west overlap_east overlap_south paper)
    (hr : r = get_page_size paper border_north border_east border_south border_west
      overlap_east overlap_south
      (width_pixels / S.pixels_per_mm) (height_pixels / S.pixels_per_mm))
    (ha : a = r.page_width * S.pixels_per_mm)
    (hb : b = r.page_height * S.pixels_per_mm)
    (hc : c = if S.orientation = "P" then S.pixels_per_mm * overlap_east
      else S.pixels_per_mm * overlap_south)
    (hd : d = if S.orientation = "P" then S.pixels_per_mm * overlap_south
      else S.pixels_per_mm * overlap_east) :
    S.tiles.length = S.pages_horizontal.toNat * S.pages_vertical.toNat ∧
    (∀ t ∈ S.tiles, 0 ≤ t.2.2.left ∧ t.2.2.right ≤ width_pixels ∧
      0 ≤ t.2.2.top ∧ t.2.2.bottom ≤ height_pixels) ∧
    (∀ px py : ℚ,
      (0 ≤ px ∧ px ≤ min width_pixels ((S.pages_horizontal : ℚ) * a + c) ∧
        0 ≤ py ∧ py ≤ min height_pixels ((S.pages_vertical : ℚ) * b + d)) ↔
      ∃ t ∈ S.tiles, rectContains t.2.2 px py) := by
  subst hS hr ha hb hc hd
  have hppm : 0 < pixels_per_mm width_pixels height_pixels squares_wide squares_high :=
    pixels_per_mm_pos hw hh hsw hsh
  have hpw0 : 0 < paper.width - (border_east + border_west) := lt_of_le_of_lt hoe hpw
  have hph0 : 0 < paper.height - (border_north + border_south) := lt_of_le_of_lt hos hph
  have hwm : 0 < width_pixels /
      pixels_per_mm width_pixels height_pixels squares_wide squares_high := div_pos hw hppm
  have hhm : 0 < height_pixels /
      pixels_per_mm width_pixels height_pixels squares_wide squares_high := div_pos hh hppm
  rcases get_page_size_cases paper border_north border_east border_south border_west
      overlap_east overlap_south
      (width_pixels / pixels_per_mm width_pixels height_pixels squares_wide squares_high)
      (height_pixels / pixels_per_mm width_pixels height_pixels squares_wide squares_high)
    with hgp | hgp <;> simp only [split_image] <;> rw [hgp] <;> dsimp only
  · exact tiles_spec width_pixels height_pixels _ _ _ _ _ _
      (mul_pos (page_dim_pos _ hoe hpw) hppm)
      (mul_pos (page_dim_pos _ hos hph) hppm)
      (by split_ifs
          · exact mul_nonneg hppm.le hoe
          · exact mul_nonneg hppm.le hos)
      (by split_ifs
          · exact mul_nonneg hppm.le hos
          · exact mul_nonneg hppm.le hoe)
      (one_le_pages hwm hpw0 hoe) (one_le_pages hhm hph0 hos)
  · exact tiles_spec width_pixels height_pixels _ _ _ _ _ _
      (mul_pos (page_dim_pos _ hos hph) hppm)
      (mul_pos (page_dim_pos _ hoe hpw) hppm)
      (by split_ifs
          · exact mul_nonneg hppm.le hoe
          · exact mul_nonneg hppm.le hos)
      (by split_ifs
          · exact mul_nonneg hppm.le hos
          · exact mul_nonneg hppm.le hoe)
      (one_le_pages hwm hph0 hos) (one_le_pages hhm hpw0 hoe)

/-- Concrete planner run: a 100mm x 100mm image on A4 with 5mm borders and
10mm overlaps fits on a single portrait page. -/
lemma get_page_size_inst_C :
    get_page_size A4 5 5 5 5 10 10 100 100 = ⟨"P", 1, 1, 200, 287⟩ := by
  have c1 : ⌈(100 : ℚ) / 200⌉ = 1 := ceil_eval (by norm_num) (by norm_num)
  have c2 : ⌈(100 : ℚ) / 287⌉ = 1 := ceil_eval (by norm_num) (by norm_num)
  have p1 : pages 100 200 10 = 1 := pages_eval_of_fit c1 10
  have p2 : pages 100 287 10 = 1 := pages_eval_of_fit c2 10
  rw [get_page_size_eval (show A4.width - (5 + 5) = (200 : ℚ) from by norm_num [A4])
    (show A4.height - (5 + 5) = (287 : ℚ) from by norm_num [A4]) p1 p2 p2 p1]
  rw [if_neg (by decide)]
  rw [zero_if_one_one]
  norm_num

lemma ppm_inst_C : pixels_per_mm 100 100 (500/127) (500/127) = 1 := by
  rw [pixels_per_mm, min_def]
  norm_num

lemma split_image_inst_C :
    (split_image 100 100 (500/127) (500/127) 5 5 5 5 10 10 A4).pages_horizontal = 1 ∧
    (split_image 100 100 (500/127) (500/127) 5 5 5 5 10 10 A4).pages_vertical = 1 := by
  simp only [split_image, ppm_inst_C, div_one]
  rw [get_page_size_inst_C]
  exact ⟨rfl, rfl⟩

theorem claim_C10_witness :
    0 < (100 : ℚ) ∧ 0 < (500/127 : ℚ) ∧ 0 ≤ (10 : ℚ) ∧
    0 < A4.width - ((5 : ℚ) + 5) ∧ 0 < A4.height - ((5 : ℚ) + 5) ∧
    (split_image 100 100 (500/127) (500/127) 5 5 5 5 10 10 A4).tiles =
      [(0, 0, ⟨0, 0, 100, 100⟩)] :=
  ⟨by norm_num, by norm_num, by norm_num, by norm_num [A4], by norm_num [A4],
    claim_C10_single_tile 100 100 (500/127) (500/127) 5 5 5 5 10 10 A4
      (by norm_num) (by norm_num) (by norm_num) (by norm_num) (by norm_num) (by norm_num)
      (by norm_num [A4]) (by norm_num [A4]) split_image_inst_C.1 split_image_inst_C.2⟩

theorem claim_C3_witness :
    0 < (415 : ℚ) ∧ 0 < (100 : ℚ) ∧ 0 < (2075/127 : ℚ) ∧ 0 < (500/127 : ℚ) ∧
    0 ≤ (10 : ℚ) ∧ (10 : ℚ) < A4.width - (5 + 5) ∧ (10 : ℚ) < A4.height - (5 + 5) ∧
    ((⟨1, [(0, 0, ⟨0, 0, 200, 100⟩), (1, 0, ⟨190, 0, 390, 100⟩)],
        "P", [5, 15, 15, 5], 2, 1, A4⟩ : SplitResult).tiles.length =
      (⟨1, [(0, 0, ⟨0, 0, 200, 100⟩), (1, 0, ⟨190, 0, 390, 100⟩)],
        "P", [5, 15, 15, 5], 2, 1, A4⟩ : SplitResult).pages_horizontal.toNat *
      (⟨1, [(0, 0, ⟨0, 0, 200, 100⟩), (1, 0, ⟨190, 0, 390, 100⟩)],
        "P", [5, 15, 15, 5], 2, 1, A4⟩ : SplitResult).pages_vertical.toNat ∧
    (∀ t ∈ (⟨1, [(0, 0, ⟨0, 0, 200, 100⟩), (1, 0, ⟨190, 0, 390, 100⟩)],
        "P", [5, 15, 15, 5], 2, 1, A4⟩ : SplitResult).tiles,
      0 ≤ t.2.2.left ∧ t.2.2.right ≤ 415 ∧ 0 ≤ t.2.2.top ∧ t.2.2.bottom ≤ 100) ∧
    (∀ px py : ℚ,
      (0 ≤ px ∧ px ≤ min 415
          (((⟨1, [(0, 0, ⟨0, 0, 200, 100⟩), (1, 0, ⟨190, 0, 390, 100⟩)],
            "P", [5, 15, 15, 5], 2, 1, A4⟩ : SplitResult).pages_horizontal : ℚ) * 190 + 10) ∧
        0 ≤ py ∧ py ≤ min 100
          (((⟨1, [(0, 0, ⟨0, 0, 200, 100⟩), (1, 0, ⟨190, 0, 390, 100⟩)],
            "P", [5, 15, 15, 5], 2, 1, A4⟩ : SplitResult).pages_vertical : ℚ) * 287 + 10)) ↔
      ∃ t ∈ (⟨1, [(0, 0, ⟨0, 0, 200, 100⟩), (1, 0, ⟨190, 0, 390, 100⟩)],
        "P", [5, 15, 15, 5], 2, 1, A4⟩ : SplitResult).tiles,
        rectContains t.2.2 px py)) :=
  ⟨by norm_num, by norm_num, by norm_num, by norm_num, by norm_num,
    by norm_num [A4], by norm_num [A4],
    claim_C3_amended 415 100 (2075/127) (500/127) 5 5 5 5 10 10 A4
      ⟨1, [(0, 0, ⟨0, 0, 200, 100⟩), (1, 0, ⟨190, 0, 390, 100⟩)],
        "P", [5, 15, 15, 5], 2, 1, A4⟩
      ⟨"P", 2, 1, 190, 287⟩ 190 287 10 10
      (by norm_num) (by norm_num) (by norm_num) (by norm_num) (by norm_num) (by norm_num)
      (by norm_num [A4]) (by norm_num [A4])
      split_image_inst_A.symm
      (by simp [get_page_size_inst_A])
      (by norm_num) (by norm_num) (by norm_num) (by norm_num)⟩
